import Mathlib

/-!
Verification of the outfit-assistant application logic (app.py).

The embedding models the pure logic of the four functions
`get_access_token`, `generate_outfit`, `classify_image` /
`recommend_outfit_by_image`, `save_history` and `load_history`.
External effects are made explicit:

* HTTP responses (token endpoint, classification endpoint) are passed in
  as values of `TokenResp` / `ClassResp`;
* the text-generation pipeline is passed in as a function
  `genFn : String → String`; the generation calls a flow performs are
  returned as the list of prompt strings it sends;
* the per-user history files are a map `Fs` from filename to `FileState`,
  where a file is absent, present but not parseable JSON
  (`json.JSONDecodeError`), or a parsed JSON array of entries;
* `st.error` messages surfaced to the user are returned as a list of
  strings;
* `datetime.now()` is passed in as the string parameter `now`.
-/

/-- One persisted history record: the dict built inside `save_history`
(fields in the order they are written). -/
structure HistoryEntry where
  user_id : String
  occasion : String
  weather : String
  style : String
  recommendation : String
  clothing_type : Option String
  timestamp : String
  deriving DecidableEq, Repr

/-- The JSON values that occur in a serialized history entry: every field
is a string except `clothing_type`, which may be `null`. -/
inductive Json where
  | null : Json
  | str : String → Json
  deriving DecidableEq, Repr

/-- The key/value list `json.dump` serializes for one entry, keys in the
insertion order of the dict literal in `save_history`. -/
def entryToJson (e : HistoryEntry) : List (String × Json) :=
  [("user_id", Json.str e.user_id),
   ("occasion", Json.str e.occasion),
   ("weather", Json.str e.weather),
   ("style", Json.str e.style),
   ("recommendation", Json.str e.recommendation),
   ("clothing_type",
     match e.clothing_type with
     | none => Json.null
     | some s => Json.str s),
   ("timestamp", Json.str e.timestamp)]

/-- State of one history file on disk: missing, present but not JSON, or a
parsed JSON array of history entries. -/
inductive FileState where
  | absent : FileState
  | malformed : FileState
  | valid : List HistoryEntry → FileState
  deriving DecidableEq, Repr

/-- The file system, as a map from filename to file state. -/
def Fs : Type := String → FileState

/-- The path pattern used by both `save_history` and `load_history`. -/
def histFilename (user_id : String) : String :=
  "history/" ++ user_id ++ "_history.json"

/-- The `history_entry` dict built at the top of `save_history`. -/
def mkHistoryEntry (user_id occasion weather style recommendation : String)
    (clothing_type : Option String) (now : String) : HistoryEntry :=
  ⟨user_id, occasion, weather, style, recommendation, clothing_type, now⟩

/-- `save_history`: read the existing array for the user (empty if the
file is absent or raises `json.JSONDecodeError`), append the new entry,
rewrite the whole file, and return `True`. -/
def save_history (now : String) (fs : Fs)
    (user_id occasion weather style recommendation : String)
    (clothing_type : Option String) : Bool × Fs :=
  let history_entry :=
    mkHistoryEntry user_id occasion weather style recommendation clothing_type now
  let filename := histFilename user_id
  let data :=
    match fs filename with
    | FileState.valid d => d
    | FileState.malformed => []
    | FileState.absent => []
  let data2 := data ++ [history_entry]
  (true, fun f => if f = filename then FileState.valid data2 else fs f)

/-- `load_history`: return the parsed array, or `[]` when the file is
absent or raises `json.JSONDecodeError`. -/
def load_history (fs : Fs) (user_id : String) : List HistoryEntry :=
  let filename := histFilename user_id
  match fs filename with
  | FileState.valid d => d
  | FileState.malformed => []
  | FileState.absent => []

/-- Response of the token endpoint: status code and the `access_token`
field of the JSON body. -/
structure TokenResp where
  status_code : Nat
  access_token : String
  deriving DecidableEq, Repr

/-- One element of the classification `result` list. -/
structure ClassItem where
  keyword : String
  deriving DecidableEq, Repr

/-- Response of the classification endpoint: status code, the optional
`result` list of the JSON body (`none` when the key is missing), and the
raw body text. -/
structure ClassResp where
  status_code : Nat
  result : Option (List ClassItem)
  text : String
  deriving DecidableEq, Repr

/-- Python truthiness of the token value: `None` and the empty string are
falsy (`if not access_token`). -/
def pyFalsy : Option String → Bool
  | none => true
  | some s => s.isEmpty

/-- `get_access_token`: on HTTP 200 return the body's `access_token`;
otherwise call `st.error` and return `None`.  Result: the optional token
and the list of surfaced error messages. -/
def get_access_token (r : TokenResp) : Option String × List String :=
  if r.status_code = 200 then (some r.access_token, [])
  else (none, ["获取百度API令牌失败，请检查密钥"])

/-- `classify_image`: fetch the token; on a falsy token return the
`"认证失败"` sentinel without posting.  Otherwise POST the image; on
HTTP 200 return the first result's keyword, or the unrecognized sentinel
when the `result` list is missing or empty; on non-200 return
`"API调用失败: "` followed by the body text.  Result: the label, whether
the POST was made, and the surfaced error messages. -/
def classify_image (tokResp : TokenResp) (cresp : ClassResp) :
    String × Bool × List String :=
  let tok := (get_access_token tokResp).1
  let errs := (get_access_token tokResp).2
  if pyFalsy tok then ("认证失败", false, errs)
  else
    let label :=
      if cresp.status_code = 200 then
        match cresp.result with
        | some (x :: _) => x.keyword
        | some [] => "未识别出服装类型"
        | none => "未识别出服装类型"
      else "API调用失败: " ++ cresp.text
    (label, true, errs)

/-- `recommend_outfit_by_image`: classify the image, build the prompt
around the returned clothing type, and run the text-generation model.
Result: `((generated_text, clothing_type), prompts sent to the model,
surfaced error messages)`. -/
def recommend_outfit_by_image (genFn : String → String) (tokResp : TokenResp)
    (cresp : ClassResp) (weather occasion : String) :
    (String × String) × List String × List String :=
  let c := classify_image tokResp cresp
  let clothing_type := c.1
  let prompt :=
    "为" ++ weather ++ "天气的" ++ occasion ++ "场合，推荐一套包含" ++
      clothing_type ++ "的穿搭："
  ((genFn prompt, clothing_type), [prompt], c.2.2)

/-- The prompt f-string of `generate_outfit`
(`style if style else ''` inserts the empty string on a falsy style). -/
def outfitPrompt (occasion weather : String) (style : Option String) : String :=
  "为" ++ weather ++ "天气的" ++ occasion ++ "场合推荐一套" ++
    (match style with
     | some s => if s.isEmpty then "" else s
     | none => "") ++ "风格的穿搭："

/-- `generate_outfit`: build the prompt and run the text-generation model.
Result: `(generated_text, prompt sent)`. -/
def generate_outfit (genFn : String → String) (occasion weather : String)
    (style : Option String) : String × String :=
  let prompt := outfitPrompt occasion weather style
  (genFn prompt, prompt)

/-- Effect of one `save_history` on the subsequently loaded history: the
read-recover-append-rewrite sequence extends the loaded list by exactly
the new entry. -/
lemma load_after_save (now : String) (fs : Fs) (uid o w s r : String)
    (ct : Option String) :
    load_history ((save_history now fs uid o w s r ct).2) uid =
      load_history fs uid ++ [mkHistoryEntry uid o w s r ct now] := by
  unfold load_history save_history
  cases h : fs (histFilename uid) <;> simp [h]

/-- C1: `save_history` followed by `load_history` for the same user
returns a list whose last element is the appended entry and whose length
is one greater than `load_history` returned before the append. -/
theorem save_then_load_appends (now : String) (fs : Fs)
    (uid o w s r : String) (ct : Option String) :
    (load_history ((save_history now fs uid o w s r ct).2) uid).getLast? =
      some (mkHistoryEntry uid o w s r ct now) ∧
    (load_history ((save_history now fs uid o w s r ct).2) uid).length =
      (load_history fs uid).length + 1 := by
  constructor
  · rw [load_after_save]
    simp
  · rw [load_after_save]
    simp

/-- C7: `load_history` returns the empty list when the user's history
file is absent, and also when the file exists but is not parseable JSON. -/
theorem load_history_missing_or_malformed_empty (fs : Fs) (uid : String)
    (h : fs (histFilename uid) = FileState.absent ∨
         fs (histFilename uid) = FileState.malformed) :
    load_history fs uid = [] := by
  unfold load_history
  rcases h with h | h <;> simp [h]

/-- Witness for C7 at a concrete file system with no files. -/
theorem load_history_missing_or_malformed_empty_witness :
    ((fun _ => FileState.absent : Fs) (histFilename "42") = FileState.absent ∨
     (fun _ => FileState.absent : Fs) (histFilename "42") = FileState.malformed) ∧
    load_history (fun _ => FileState.absent) "42" = [] :=
  ⟨Or.inl rfl,
   load_history_missing_or_malformed_empty (fun _ => FileState.absent) "42"
     (Or.inl rfl)⟩

/-- C9: appending three entries for user "42" starting from an empty file
system and then loading returns exactly those three entries in insertion
order; moreover every append leaves the previously loaded entries
unchanged in their positions and only adds one entry at the end. -/
theorem three_appends_insertion_order
    (n1 n2 n3 o1 o2 o3 w1 w2 w3 s1 s2 s3 r1 r2 r3 : String)
    (c1 c2 c3 : Option String) :
    (load_history
        ((save_history n3
            ((save_history n2
                ((save_history n1 (fun _ => FileState.absent) "42"
                    o1 w1 s1 r1 c1).2) "42" o2 w2 s2 r2 c2).2) "42"
            o3 w3 s3 r3 c3).2) "42" =
      [mkHistoryEntry "42" o1 w1 s1 r1 c1 n1,
       mkHistoryEntry "42" o2 w2 s2 r2 c2 n2,
       mkHistoryEntry "42" o3 w3 s3 r3 c3 n3]) ∧
    (∀ (now : String) (fs : Fs) (uid o w s r : String) (ct : Option String),
      load_history ((save_history now fs uid o w s r ct).2) uid =
        load_history fs uid ++ [mkHistoryEntry uid o w s r ct now]) := by
  constructor
  · rw [load_after_save, load_after_save, load_after_save]
    simp [load_history]
  · exact fun now fs uid o w s r ct => load_after_save now fs uid o w s r ct

/-- C10: every entry written by `save_history` serializes with exactly the
seven keys user_id, occasion, weather, style, recommendation,
clothing_type, timestamp in this order; with no clothing type supplied the
clothing_type key is present and bound to `null` rather than omitted; and
`save_history` returns `True` on every call. -/
theorem save_history_entry_fields (now : String) (fs : Fs)
    (uid o w s r : String) (ct : Option String) :
    (save_history now fs uid o w s r ct).1 = true ∧
    (entryToJson (mkHistoryEntry uid o w s r ct now)).map Prod.fst =
      ["user_id", "occasion", "weather", "style", "recommendation",
       "clothing_type", "timestamp"] ∧
    (entryToJson (mkHistoryEntry uid o w s r none now)).lookup
        "clothing_type" = some Json.null := by
  exact ⟨rfl, rfl, rfl⟩

/-- C2 counterexample: with a failing token response (status 400, not
200), `recommend_outfit_by_image` still performs a text-generation call —
the flow is not aborted, refuting the claim at this concrete input. -/
theorem auth_failure_still_generates_cex :
    (400 : Nat) ≠ 200 ∧
    (recommend_outfit_by_image (fun p => p) (TokenResp.mk 400 "")
        (ClassResp.mk 200 (some []) "") "炎热" "日常").2.1 =
      ["为炎热天气的日常场合，推荐一套包含认证失败的穿搭："] := by
  exact ⟨by decide, rfl⟩

/-- C2 amended: when authentication fails (non-200 token response), a
user-visible error is surfaced and the clothing type degrades to the
`"认证失败"` sentinel, but the recommendation flow is not aborted: the
text-generation call is still made, with the sentinel embedded in the
prompt. -/
theorem auth_failure_error_surfaced_flow_continues
    (genFn : String → String) (tokResp : TokenResp) (cresp : ClassResp)
    (weather occasion : String) (h : tokResp.status_code ≠ 200) :
    (recommend_outfit_by_image genFn tokResp cresp weather occasion).2.2 =
      ["获取百度API令牌失败，请检查密钥"] ∧
    (recommend_outfit_by_image genFn tokResp cresp weather occasion).1.2 =
      "认证失败" ∧
    (recommend_outfit_by_image genFn tokResp cresp weather occasion).2.1 =
      ["为" ++ weather ++ "天气的" ++ occasion ++ "场合，推荐一套包含" ++
        "认证失败" ++ "的穿搭："] := by
  unfold recommend_outfit_by_image classify_image get_access_token
  simp [h, pyFalsy]

/-- Witness for the amended C2 at a concrete failing token response. -/
theorem auth_failure_error_surfaced_flow_continues_witness :
    (TokenResp.mk 401 "").status_code ≠ 200 ∧
    ((recommend_outfit_by_image (fun p => p) (TokenResp.mk 401 "")
        (ClassResp.mk 200 (some []) "") "炎热" "日常").2.2 =
      ["获取百度API令牌失败，请检查密钥"] ∧
     (recommend_outfit_by_image (fun p => p) (TokenResp.mk 401 "")
        (ClassResp.mk 200 (some []) "") "炎热" "日常").1.2 = "认证失败" ∧
     (recommend_outfit_by_image (fun p => p) (TokenResp.mk 401 "")
        (ClassResp.mk 200 (some []) "") "炎热" "日常").2.1 =
      ["为" ++ "炎热" ++ "天气的" ++ "日常" ++ "场合，推荐一套包含" ++
        "认证失败" ++ "的穿搭："]) :=
  ⟨by decide,
   auth_failure_error_surfaced_flow_continues (fun p => p)
     (TokenResp.mk 401 "") (ClassResp.mk 200 (some []) "") "炎热" "日常"
     (by decide)⟩

/-- C3: for every non-200 token response, `get_access_token` returns
`None`, and under that absent token `classify_image` performs no POST to
the classification endpoint. -/
theorem token_non200_no_post (r : TokenResp) (cresp : ClassResp)
    (h : r.status_code ≠ 200) :
    (get_access_token r).1 = none ∧ (classify_image r cresp).2.1 = false := by
  unfold classify_image get_access_token
  simp [h, pyFalsy]

/-- Witness for C3 at a concrete non-200 token response. -/
theorem token_non200_no_post_witness :
    (TokenResp.mk 500 "x").status_code ≠ 200 ∧
    ((get_access_token (TokenResp.mk 500 "x")).1 = none ∧
     (classify_image (TokenResp.mk 500 "x")
        (ClassResp.mk 200 (some [ClassItem.mk "T-shirt"]) "")).2.1 = false) :=
  ⟨by decide,
   token_non200_no_post (TokenResp.mk 500 "x")
     (ClassResp.mk 200 (some [ClassItem.mk "T-shirt"]) "") (by decide)⟩

/-- C4: with a valid token, for every HTTP-200 classification response
whose result list is non-empty, `classify_image` returns the keyword of
the first element of that list. -/
theorem classify_nonempty_result_first_keyword (tokResp : TokenResp)
    (cresp : ClassResp) (x : ClassItem) (rest : List ClassItem)
    (htok : tokResp.status_code = 200)
    (hne : tokResp.access_token.isEmpty = false)
    (hst : cresp.status_code = 200)
    (hres : cresp.result = some (x :: rest)) :
    (classify_image tokResp cresp).1 = x.keyword := by
  unfold classify_image get_access_token
  simp [htok, hne, hst, hres, pyFalsy]

/-- Witness for C4: the spec's own example `result = [{"keyword":
"T-shirt"}]` yields `"T-shirt"`. -/
theorem classify_nonempty_result_first_keyword_witness :
    ((TokenResp.mk 200 "tok").status_code = 200 ∧
     (TokenResp.mk 200 "tok").access_token.isEmpty = false ∧
     (ClassResp.mk 200 (some [ClassItem.mk "T-shirt"]) "").status_code = 200 ∧
     (ClassResp.mk 200 (some [ClassItem.mk "T-shirt"]) "").result =
       some (ClassItem.mk "T-shirt" :: [])) ∧
    (classify_image (TokenResp.mk 200 "tok")
        (ClassResp.mk 200 (some [ClassItem.mk "T-shirt"]) "")).1 =
      (ClassItem.mk "T-shirt").keyword :=
  ⟨⟨rfl, by decide, rfl, rfl⟩,
   classify_nonempty_result_first_keyword (TokenResp.mk 200 "tok")
     (ClassResp.mk 200 (some [ClassItem.mk "T-shirt"]) "")
     (ClassItem.mk "T-shirt") [] rfl (by decide) rfl rfl⟩

/-- C5: with a valid token, for every HTTP-200 classification response
whose result list is empty or missing, `classify_image` returns the fixed
unrecognized sentinel `"未识别出服装类型"`. -/
theorem classify_empty_result_sentinel (tokResp : TokenResp)
    (cresp : ClassResp) (htok : tokResp.status_code = 200)
    (hne : tokResp.access_token.isEmpty = false)
    (hst : cresp.status_code = 200)
    (hres : cresp.result = some [] ∨ cresp.result = none) :
    (classify_image tokResp cresp).1 = "未识别出服装类型" := by
  unfold classify_image get_access_token
  rcases hres with hres | hres <;> simp [htok, hne, hst, hres, pyFalsy]

/-- Witness for C5: the spec's own example `result = []` yields the
sentinel. -/
theorem classify_empty_result_sentinel_witness :
    ((TokenResp.mk 200 "tok").status_code = 200 ∧
     (TokenResp.mk 200 "tok").access_token.isEmpty = false ∧
     (ClassResp.mk 200 (some []) "").status_code = 200 ∧
     ((ClassResp.mk 200 (some []) "").result = some [] ∨
      (ClassResp.mk 200 (some []) "").result = none)) ∧
    (classify_image (TokenResp.mk 200 "tok")
        (ClassResp.mk 200 (some []) "")).1 = "未识别出服装类型" :=
  ⟨⟨rfl, by decide, rfl, Or.inl rfl⟩,
   classify_empty_result_sentinel (TokenResp.mk 200 "tok")
     (ClassResp.mk 200 (some []) "") rfl (by decide) rfl (Or.inl rfl)⟩

/-- C6 counterexample: with a valid token and a non-200 classification
response whose body text is `"X"`, `classify_image` does not return
`"X"`: it returns `"API调用失败: X"`, refuting the claim that the
returned string equals the response body text. -/
theorem non200_body_not_raw_cex :
    (classify_image (TokenResp.mk 200 "tok")
        (ClassResp.mk 500 none "X")).1 ≠ "X" ∧
    (classify_image (TokenResp.mk 200 "tok")
        (ClassResp.mk 500 none "X")).1 = "API调用失败: X" := by
  exact ⟨by decide, rfl⟩

/-- C6 amended: with a valid token, for every non-200 classification
response `classify_image` returns an error string consisting of the fixed
text `"API调用失败: "` followed by the raw response body. -/
theorem non200_returns_prefixed_body (tokResp : TokenResp)
    (cresp : ClassResp) (htok : tokResp.status_code = 200)
    (hne : tokResp.access_token.isEmpty = false)
    (hst : cresp.status_code ≠ 200) :
    (classify_image tokResp cresp).1 = "API调用失败: " ++ cresp.text := by
  unfold classify_image get_access_token
  simp [htok, hne, hst, pyFalsy]

/-- Witness for the amended C6 at a concrete 500 response. -/
theorem non200_returns_prefixed_body_witness :
    ((TokenResp.mk 200 "tok").status_code = 200 ∧
     (TokenResp.mk 200 "tok").access_token.isEmpty = false ∧
     (ClassResp.mk 500 none "X").status_code ≠ 200) ∧
    (classify_image (TokenResp.mk 200 "tok")
        (ClassResp.mk 500 none "X")).1 =
      "API调用失败: " ++ (ClassResp.mk 500 none "X").text :=
  ⟨⟨rfl, by decide, by decide⟩,
   non200_returns_prefixed_body (TokenResp.mk 200 "tok")
     (ClassResp.mk 500 none "X") rfl (by decide) (by decide)⟩

/-- C8: the prompt `generate_outfit` sends to the generation call is a
deterministic function of (occasion, weather, style) alone — two calls
with the same triple build the exact same prompt string — and, since the
text-generation pipeline returns the prompt extended by a continuation
(its output is at least as long as the prompt), the produced string is
non-empty. -/
theorem composer_prompt_deterministic_nonempty (genFn : String → String)
    (occasion weather : String) (style : Option String)
    (hgen : ∀ p : String, p.length ≤ (genFn p).length) :
    (generate_outfit genFn occasion weather style).2 =
      outfitPrompt occasion weather style ∧
    (∀ genFn2 : String → String,
      (generate_outfit genFn2 occasion weather style).2 =
        (generate_outfit genFn occasion weather style).2) ∧
    (generate_outfit genFn occasion weather style).1 ≠ "" := by
  refine ⟨rfl, fun genFn2 => rfl, ?_⟩
  intro hempty
  have hlen : 0 < (outfitPrompt occasion weather style).length := by
    unfold outfitPrompt
    rw [String.length_append]
    have h6 : ("风格的穿搭：" : String).length = 6 := by decide
    rw [h6]
    omega
  have hout : 0 < (genFn (outfitPrompt occasion weather style)).length :=
    lt_of_lt_of_le hlen (hgen (outfitPrompt occasion weather style))
  have : genFn (outfitPrompt occasion weather style) = "" := hempty
  rw [this] at hout
  simp at hout

/-- Witness for C8 with the identity generation function and a concrete
valid triple. -/
theorem composer_prompt_deterministic_nonempty_witness :
    (∀ p : String, p.length ≤ ((fun q : String => q) p).length) ∧
    ((generate_outfit (fun q : String => q) "日常" "炎热" (some "休闲")).2 =
       outfitPrompt "日常" "炎热" (some "休闲") ∧
     (∀ genFn2 : String → String,
       (generate_outfit genFn2 "日常" "炎热" (some "休闲")).2 =
         (generate_outfit (fun q : String => q) "日常" "炎热"
           (some "休闲")).2) ∧
     (generate_outfit (fun q : String => q) "日常" "炎热"
        (some "休闲")).1 ≠ "") :=
  ⟨fun _ => le_refl _,
   composer_prompt_deterministic_nonempty (fun q : String => q)
     "日常" "炎热" (some "休闲") (fun _ => le_refl _)⟩
